import Mathlib

/-!
Shallow embedding of `src/bot.js` (serverless-slack-bot): a Slack webhook
handler `run` that classifies an inbound event, verifies a URL challenge,
routes chat commands, and calls two external APIs (CloudFront cache
invalidation and Slack message posting).

Modelling conventions:
* JavaScript values that can be a string or `undefined` are `Option String`.
* The result of `JSON.parse(data.body)` is supplied as an `Except` field of
  the request record, since the real JSON text is opaque to the handler.
* External API outcomes (`CloudFront.createInvalidation` callback,
  `Slack.chat.postMessage` promise) and `Date.now()` are supplied by a
  `World` record; every outbound API call is recorded in an effect trace in
  the order the code issues it, whether or not it succeeds.
* A thrown JS value is `JsErr`; `run` returning `none` models the async
  function rejecting without producing a response object.
-/

/-- A JavaScript value as it appears in the handler's response bodies and
headers: `JSON.parse` results, object literals such as `{ ok: true }`,
strings, numbers, and `undefined`. -/
inductive JVal where
  | jundefined : JVal
  | jnull : JVal
  | jbool : Bool → JVal
  | jnum : Int → JVal
  | jstr : String → JVal
  | jobj : List (String × JVal) → JVal

/-- A thrown JavaScript value: the literal string thrown by `verifyCall`, a
`TypeError` from a property access or method call on `undefined`, or a
rejection value handed back by an external API (represented by its JSON
serialization, which is all the handler ever extracts from it). -/
inductive JsErr where
  | thrownString : String → JsErr
  | typeError : String → JsErr
  | external : String → JsErr
deriving DecidableEq

/-- `JSON.stringify(err)` as applied in the catch block of `run`:
a thrown plain string is quoted; an `Error` object (such as a `TypeError`)
has no enumerable own properties and stringifies to `{}`; an external
rejection value is carried already stringified. -/
def stringifyErr : JsErr → String
  | .thrownString s => "\x22" ++ s ++ "\x22"
  | .typeError _ => "\x7b\x7d"
  | .external s => s

/-- The `process.env` configuration read by the handler (each variable is a
string or `undefined`). -/
structure Env where
  VERIFICATION_TOKEN : Option String
  BOT_TOKEN : Option String
  BOT_NAME : Option String
  CDN_DISTRIBUTION : Option String
deriving DecidableEq

/-- JS template interpolation of a possibly-undefined env string:
interpolating `undefined` yields the text "undefined". -/
def envStr : Option String → String
  | none => "undefined"
  | some s => s

/-- The nested CloudFront invalidation object in the API response
(`data.Invalidation.Id`). -/
structure CFInvalidation where
  Id : String
deriving DecidableEq

/-- The CloudFront `createInvalidation` response data. -/
structure CFData where
  Invalidation : CFInvalidation
deriving DecidableEq

/-- The external world for one invocation: the value of `Date.now()`, the
outcome of the CloudFront `createInvalidation` callback, and the outcome of
the Slack `chat.postMessage` promise. -/
structure World where
  nowMs : Nat
  cfResult : Except JsErr CFData
  slackResult : Except JsErr Unit

/-- A Slack message object as used by `handleMessage`: `bot_id` and `text`
may be absent (`undefined`), `channel` likewise. -/
structure Message where
  bot_id : Option String
  text : Option String
  channel : Option String
deriving DecidableEq

/-- The parsed request body (`dataObject`): `type`, `token`, `challenge`
and `event` are all optional fields of the inbound JSON. -/
structure DataObject where
  type : Option String
  token : Option String
  challenge : Option String
  event : Option Message
deriving DecidableEq

/-- The Lambda input `data`: the `body` field is given by the outcome of
`JSON.parse(data.body)` (the raw text itself is opaque to the handler), and
`headers` is the HTTP header map. -/
structure RequestData where
  body : Except JsErr DataObject
  headers : List (String × String)

/-- The response object built by `run`: `{ statusCode, body, headers }`. -/
structure Response where
  statusCode : Nat
  body : JVal
  headers : List (String × JVal)

/-- One recorded outbound API call, with the exact parameters the source
passes: `CloudFront.createInvalidation` with `DistributionId`,
`CallerReference`, `Quantity` and `Items`, or `Slack.chat.postMessage`
with `token`, `channel` and `text`. -/
inductive Effect where
  | createInvalidation : Option String → String → String → List String → Effect
  | postMessage : Option String → Option String → String → Effect
deriving DecidableEq

/-- JS `'key' in obj` on the headers map: key membership. -/
def hasKey (hs : List (String × String)) (k : String) : Bool :=
  hs.any (fun p => p.fst = k)

/-- JS string truthiness for `message.bot_id`: `undefined` and the empty
string are falsy, every other string is truthy. -/
def truthyStr : Option String → Bool
  | none => false
  | some s => !(s = "")

/-- JS `String.prototype.split` with a one-character separator, on the
character list: splitting the empty string yields one empty segment, and
adjacent separators yield empty segments, exactly as in JS. -/
def jsSplit (sep : Char) : List Char → List (List Char)
  | [] => [[]]
  | c :: cs =>
    match jsSplit sep cs with
    | [] => [[]]
    | r :: rs => if c = sep then [] :: r :: rs else (c :: r) :: rs

/-- `parseMessage` from `src/bot.js`: `message.split(' ', 2).pop()`.
The limit 2 keeps only the first two split segments; `pop` returns the last
element of that non-empty array. -/
def parseMessage (message : String) : String :=
  String.mk (((jsSplit ' ' message.toList).take 2).getLastD [])

/-- `verifyCall` from `src/bot.js`: returns `data.challenge` when
`data.token === process.env.VERIFICATION_TOKEN`, otherwise throws the
string 'Verification failed'. -/
def verifyCall (env : Env) (data : DataObject) : Except JsErr (Option String) :=
  if data.token = env.VERIFICATION_TOKEN then Except.ok data.challenge
  else Except.error (JsErr.thrownString "Verification failed")

/-- `invalidateDistribution` from `src/bot.js`: one
`CloudFront.createInvalidation` call with `DistributionId` from the env,
`CallerReference := Date.now() + ''`, `Quantity '1'`, `Items ['/*']`;
the promise resolves or rejects with the callback outcome. -/
def invalidateDistribution (env : Env) (w : World) : Except JsErr CFData × Effect :=
  (w.cfResult,
   Effect.createInvalidation env.CDN_DISTRIBUTION (toString w.nowMs) "1" ["/*"])

/-- `sendSlackMessage` from `src/bot.js`: one `Slack.chat.postMessage` call
with the env bot token, the channel and the text. -/
def sendSlackMessage (env : Env) (w : World) (channel : Option String) (message : String) : Except JsErr Unit × Effect :=
  (w.slackResult, Effect.postMessage env.BOT_TOKEN channel message)

/-- The confirmation text sent after a successful invalidation, with the
invalidation ID interpolated. -/
def confirmMsg (id : String) : String :=
  "Sir/Madam, I\x27ve just invalidated the cache, this is the invalidation ID. *" ++ (id ++ "*")

/-- The help text of the default command branch, with
`process.env.BOT_NAME` interpolated. -/
def helpMsg (env : Env) : String :=
  "Sir/Madam, I don\x27t understand what you need. Please use \x60@" ++ (envStr env.BOT_NAME ++ " invalidate_cdn\x60 to clear the CDN cache.")

/-- `handleMessage` from `src/bot.js`. Receives `dataObject.event`, which
may be absent (property access on `undefined` throws a `TypeError`). When
`message.bot_id` is falsy it parses the command from `message.text`
(calling `.split` on an absent text throws a `TypeError`) and dispatches:
`invalidate_cdn` awaits one invalidation then one confirmation post; any
other command posts the help message. Returns the promise outcome and the
trace of API calls made, in order. -/
def handleMessage (env : Env) (w : World) (message : Option Message) : Except JsErr Unit × List Effect :=
  match message with
  | none => (Except.error (JsErr.typeError "cannot read bot_id of undefined"), [])
  | some msg =>
    if !(truthyStr msg.bot_id) then
      match msg.text with
      | none => (Except.error (JsErr.typeError "cannot call split of undefined"), [])
      | some text =>
        let command := parseMessage text
        if command = "invalidate_cdn" then
          let inv := invalidateDistribution env w
          match inv.fst with
          | Except.error e => (Except.error e, [inv.snd])
          | Except.ok invalidationData =>
            let send := sendSlackMessage env w msg.channel (confirmMsg invalidationData.Invalidation.Id)
            match send.fst with
            | Except.error e => (Except.error e, [inv.snd, send.snd])
            | Except.ok _ => (Except.ok (), [inv.snd, send.snd])
        else
          let send := sendSlackMessage env w msg.channel (helpMsg env)
          match send.fst with
          | Except.error e => (Except.error e, [send.snd])
          | Except.ok _ => (Except.ok (), [send.snd])
    else (Except.ok (), [])

/-- The default response object initialized at the top of `run`:
status 200, empty object body, and the numeric-valued no-retry header
`{ 'X-Slack-No-Retry': 1 }`. -/
def defaultResponse : Response :=
  { statusCode := 200, body := JVal.jobj [], headers := [("X-Slack-No-Retry", JVal.jnum 1)] }

/-- `module.exports.run` from `src/bot.js`. `JSON.parse(data.body)` runs
before the try block, so a parse failure rejects the async function with no
response (`none`). Otherwise the default response is built, the retry
header short-circuits all processing, and the type switch dispatches to
`verifyCall` / `handleMessage`; any error thrown inside the try is caught
and turned into a 500 whose body is the stringified error; the finally
block returns the response unconditionally. The effect trace of the
invocation is returned alongside. -/
def run (env : Env) (w : World) (data : RequestData) : Option Response × List Effect :=
  match data.body with
  | Except.error _ => (none, [])
  | Except.ok dataObject =>
    if !(hasKey data.headers "X-Slack-Retry-Num") then
      match dataObject.type with
      | some "url_verification" =>
        match verifyCall env dataObject with
        | Except.ok challenge =>
          (some { defaultResponse with
                    body := match challenge with
                            | none => JVal.jundefined
                            | some c => JVal.jstr c }, [])
        | Except.error err =>
          (some { defaultResponse with statusCode := 500, body := JVal.jstr (stringifyErr err) }, [])
      | some "event_callback" =>
        match handleMessage env w dataObject.event with
        | (Except.ok _, trace) =>
          (some { defaultResponse with body := JVal.jobj [("ok", JVal.jbool true)] }, trace)
        | (Except.error err, trace) =>
          (some { defaultResponse with statusCode := 500, body := JVal.jstr (stringifyErr err) }, trace)
      | _ =>
        (some { defaultResponse with statusCode := 400, body := JVal.jstr "Empty request" }, [])
    else
      (some defaultResponse, [])

/-! ### Helper lemmas -/

/-- String append is associative. -/
theorem strAppend_assoc (a b c : String) : (a ++ b) ++ c = a ++ (b ++ c) := by
  apply String.ext
  simp [String.data_append, List.append_assoc]

/-- Splitting a list that contains no separator yields that single segment. -/
theorem jsSplit_noSep (sep : Char) (l : List Char) (h : ∀ c ∈ l, c ≠ sep) :
    jsSplit sep l = [l] := by
  induction l with
  | nil => rfl
  | cons c cs ih =>
    have hc : c ≠ sep := h c (List.mem_cons_self c cs)
    have ihh := ih (fun x hx => h x (List.mem_cons_of_mem c hx))
    simp [jsSplit, ihh, hc]

/-- Splitting a list with exactly one separator yields the two segments. -/
theorem jsSplit_two (sep : Char) (l₁ l₂ : List Char)
    (h₁ : ∀ c ∈ l₁, c ≠ sep) (h₂ : ∀ c ∈ l₂, c ≠ sep) :
    jsSplit sep (l₁ ++ sep :: l₂) = [l₁, l₂] := by
  induction l₁ with
  | nil => simp [jsSplit, jsSplit_noSep sep l₂ h₂]
  | cons c cs ih =>
    have hc : c ≠ sep := h₁ c (List.mem_cons_self c cs)
    have ihh := ih (fun x hx => h₁ x (List.mem_cons_of_mem c hx))
    simp [jsSplit, ihh, hc]

/-- A text without any space character is returned whole by `parseMessage`. -/
theorem parseMessage_noSpace (t : String) (h : ∀ c ∈ t.toList, c ≠ ' ') :
    parseMessage t = t := by
  unfold parseMessage
  rw [jsSplit_noSep ' ' t.toList h]
  rfl

/-- On a text made of two space-free segments joined by one space,
`parseMessage` returns the second segment. -/
theorem parseMessage_second (t₁ t₂ : String)
    (h₁ : ∀ c ∈ t₁.toList, c ≠ ' ') (h₂ : ∀ c ∈ t₂.toList, c ≠ ' ') :
    parseMessage (t₁ ++ (" " ++ t₂)) = t₂ := by
  unfold parseMessage
  have hl : (t₁ ++ (" " ++ t₂)).toList = t₁.toList ++ ' ' :: t₂.toList := by
    simp [String.toList, String.data_append]
  rw [hl, jsSplit_two ' ' t₁.toList t₂.toList h₁ h₂]
  rfl

/-- `sub` occurs as a contiguous substring of `hay`. -/
def containsSub (hay sub : String) : Prop :=
  ∃ a b : String, hay = (a ++ sub) ++ b

/-- A string of the shape `x ++ (y ++ z)` contains `y`. -/
theorem containsSub_mid (x y z : String) : containsSub (x ++ (y ++ z)) y :=
  ⟨x, z, (strAppend_assoc x y z).symm⟩

/-- Prepending text preserves substring containment. -/
theorem containsSub_cons (x : String) (hay sub : String) (h : containsSub hay sub) :
    containsSub (x ++ hay) sub := by
  obtain ⟨a, b, hab⟩ := h
  exact ⟨x ++ a, b, by rw [hab]; simp [strAppend_assoc]⟩

/-- A concrete configuration used to instantiate theorems with hypotheses. -/
def env₀ : Env := ⟨some "sek", some "xoxb-1", some "bender", some "E2ABCD"⟩

/-- A concrete world (timestamp and successful API outcomes) used to
instantiate theorems with hypotheses. -/
def w₀ : World := ⟨1700000000000, Except.ok ⟨⟨"I2J3K4"⟩⟩, Except.ok ()⟩

/-! ### Claims about `parseMessage` (C2, C9) -/

/-- C2 (counterexample): `parseMessage "@bot"` is the string `"@bot"`
itself, not `undefined` and not empty. -/
theorem C2_cex_single_token : parseMessage "@bot" = "@bot" ∧ ("@bot" : String) ≠ "" := by
  decide

/-- C2 (amended): the parsed command is the last of the first two
space-separated segments: on a two-token text it is the second token
(`parseMessage "@bot invalidate_cdn" = "invalidate_cdn"`, and in general
for two space-free tokens joined by a single space), while on a text with
fewer than two tokens such as `"@bot"` the command is the entire text
(not undefined/empty), which still lands in the default help branch of
`handleMessage` whenever it differs from `invalidate_cdn`. -/
theorem C2_second_token :
    parseMessage "@bot invalidate_cdn" = "invalidate_cdn"
    ∧ parseMessage "@bot" = "@bot"
    ∧ (∀ t₁ t₂ : String, (∀ c ∈ t₁.toList, c ≠ ' ') → (∀ c ∈ t₂.toList, c ≠ ' ') →
        parseMessage (t₁ ++ (" " ++ t₂)) = t₂)
    ∧ (∀ (env : Env) (w : World) (ch : Option String),
        (handleMessage env w (some ⟨none, some "@bot", ch⟩)).snd
          = [Effect.postMessage env.BOT_TOKEN ch (helpMsg env)]) := by
  refine ⟨by decide, by decide, parseMessage_second, ?_⟩
  intro env w ch
  have hcmd : parseMessage "@bot" = "@bot" := by decide
  rcases hsl : w.slackResult with e | u <;>
    simp [handleMessage, truthyStr, hcmd, sendSlackMessage, hsl]

/-- C2 (witness): the amended theorem instantiated on the concrete text
`"@bot invalidate_cdn"`. -/
theorem C2_second_token_witness :
    parseMessage ("@bot" ++ (" " ++ "invalidate_cdn")) = "invalidate_cdn" :=
  C2_second_token.2.2.1 "@bot" "invalidate_cdn" (by decide) (by decide)

/-- C9: a message text with no space character is returned whole by
`parseMessage`; consequently an `event_callback` message whose full text is
exactly `invalidate_cdn`, with no bot mention, dispatches the invalidation
command (the first recorded API call of `handleMessage` is the CloudFront
invalidation). -/
theorem C9_bare_command_dispatches :
    (∀ t : String, (∀ c ∈ t.toList, c ≠ ' ') → parseMessage t = t)
    ∧ (∀ (env : Env) (w : World) (ch : Option String),
        ((handleMessage env w (some ⟨none, some "invalidate_cdn", ch⟩)).snd).head?
          = some (Effect.createInvalidation env.CDN_DISTRIBUTION (toString w.nowMs) "1" ["/*"])) := by
  constructor
  · exact parseMessage_noSpace
  · intro env w ch
    have hcmd : parseMessage "invalidate_cdn" = "invalidate_cdn" := by decide
    rcases hcf : w.cfResult with e | d <;> rcases hsl : w.slackResult with e' | u <;>
      simp [handleMessage, truthyStr, hcmd, invalidateDistribution, sendSlackMessage, hcf, hsl]

/-- C9 (witness): instantiated on the bare text `"invalidate_cdn"` and the
concrete environment. -/
theorem C9_bare_command_dispatches_witness :
    parseMessage "invalidate_cdn" = "invalidate_cdn"
    ∧ ((handleMessage env₀ w₀ (some ⟨none, some "invalidate_cdn", some "C1"⟩)).snd).head?
        = some (Effect.createInvalidation env₀.CDN_DISTRIBUTION (toString w₀.nowMs) "1" ["/*"]) :=
  ⟨C9_bare_command_dispatches.1 "invalidate_cdn" (by decide),
   C9_bare_command_dispatches.2 env₀ w₀ (some "C1")⟩

/-! ### Claims about `run` (C1, C3, C8) -/

/-- Whenever the body parses, `run` produces a response on every path. -/
theorem run_isSome (env : Env) (w : World) (obj : DataObject) (hdrs : List (String × String)) :
    ((run env w ⟨Except.ok obj, hdrs⟩).fst).isSome = true := by
  simp only [run]
  repeat' split
  all_goals simp

/-- C1 (counterexample): when `JSON.parse(data.body)` fails, the parse
happens before the try/finally, so `run` rejects and returns no response at
all — in particular no response with statusCode 500. -/
theorem C1_cex_invalid_json :
    (run env₀ w₀ ⟨Except.error (JsErr.typeError "Unexpected token"), []⟩).fst = none := rfl

/-- C1 (amended): `run` returns exactly one Response precisely on the
invocations whose body parses as JSON; when the body is not valid JSON the
parse error is thrown before the try block, so the invocation completes
with no Response (the async function rejects) rather than a 500. -/
theorem C1_response_totality (env : Env) (w : World) (data : RequestData) :
    ((run env w data).fst).isSome = true ↔ ∃ obj, data.body = Except.ok obj := by
  rcases data with ⟨b, hd⟩
  cases b with
  | error e => simp [run]
  | ok obj =>
    exact ⟨fun _ => ⟨obj, rfl⟩, fun _ => run_isSome env w obj hd⟩

/-- C3: any request whose headers contain `X-Slack-Retry-Num` and whose
body parses as JSON gets the unmodified default response (200, empty object
body, no-retry header) and triggers no API call, whatever the event type or
content. -/
theorem C3_retry_header_skips (env : Env) (w : World) (obj : DataObject)
    (hdrs : List (String × String))
    (hre : hasKey hdrs "X-Slack-Retry-Num" = true) :
    run env w ⟨Except.ok obj, hdrs⟩ = (some defaultResponse, []) := by
  simp [run, hre]

/-- C3 (witness): a retried `event_callback` carrying a live invalidation
command is still answered with the untouched default response and an empty
effect trace. -/
theorem C3_retry_header_skips_witness :
    run env₀ w₀ ⟨Except.ok ⟨some "event_callback", none, none,
        some ⟨none, some "@bot invalidate_cdn", some "C1"⟩⟩,
      [("X-Slack-Retry-Num", "1")]⟩ = (some defaultResponse, []) :=
  C3_retry_header_skips env₀ w₀ _ _ (by decide)

/-- C8 (counterexample): the headers mapping of every produced response
carries the numeric value 1 (the source writes `'X-Slack-No-Retry': 1`),
not the string "1" the claim states. -/
theorem C8_cex_numeric_header :
    ((run env₀ w₀ ⟨Except.ok ⟨some "bogus", none, none, none⟩, []⟩).fst
      = some ⟨400, JVal.jstr "Empty request", [("X-Slack-No-Retry", JVal.jnum 1)]⟩)
    ∧ JVal.jnum 1 ≠ JVal.jstr "1" :=
  ⟨rfl, by simp⟩

/-- C8 (amended): on every code path that produces a Response (success,
400, and caught-error 500), the returned headers field is the mapping
`X-Slack-No-Retry ↦ 1` with the numeric value 1 (not the string "1"),
unchanged from the default response built at the top of `run` and returned
unconditionally by the finalizer. -/
theorem C8_headers_constant (env : Env) (w : World) (data : RequestData) (r : Response)
    (h : (run env w data).fst = some r) :
    r.headers = [("X-Slack-No-Retry", JVal.jnum 1)] := by
  rcases data with ⟨b, hd⟩
  cases b with
  | error e => simp [run] at h
  | ok obj =>
    simp only [run] at h
    repeat' split at h
    all_goals simp_all [defaultResponse]
    all_goals (cases h; rfl)

/-- C8 (witness): the amended theorem instantiated on a concrete 400
response. -/
theorem C8_headers_constant_witness :
    Response.headers ⟨400, JVal.jstr "Empty request", [("X-Slack-No-Retry", JVal.jnum 1)]⟩
      = [("X-Slack-No-Retry", JVal.jnum 1)] :=
  C8_headers_constant env₀ w₀ ⟨Except.ok ⟨some "bogus", none, none, none⟩, []⟩ _ rfl

/-! ### Claims about event routing (C4, C5, C6, C7, C10) -/

/-- C5: for a `url_verification` request (without retry header), the
answer is 200 with body equal to the literal challenge string exactly when
the inbound token equals the configured verification secret; on a mismatch
the thrown string reaches the outer catch and the answer is a 500 carrying
the stringified error. -/
theorem C5_url_verification (env : Env) (w : World) (hdrs : List (String × String))
    (tok : Option String) (c : String) (ev : Option Message)
    (hre : hasKey hdrs "X-Slack-Retry-Num" = false) :
    (((run env w ⟨Except.ok ⟨some "url_verification", tok, some c, ev⟩, hdrs⟩).fst
        = some ⟨200, JVal.jstr c, [("X-Slack-No-Retry", JVal.jnum 1)]⟩)
      ↔ tok = env.VERIFICATION_TOKEN)
    ∧ (tok ≠ env.VERIFICATION_TOKEN →
        (run env w ⟨Except.ok ⟨some "url_verification", tok, some c, ev⟩, hdrs⟩).fst
          = some ⟨500, JVal.jstr (stringifyErr (JsErr.thrownString "Verification failed")),
              [("X-Slack-No-Retry", JVal.jnum 1)]⟩) := by
  by_cases htok : tok = env.VERIFICATION_TOKEN <;>
    simp [run, hre, verifyCall, htok, defaultResponse]

/-- C5 (witness): instantiated on the concrete configuration with a
matching token. -/
theorem C5_url_verification_witness :
    (((run env₀ w₀ ⟨Except.ok ⟨some "url_verification", some "sek", some "chal-9", none⟩, []⟩).fst
        = some ⟨200, JVal.jstr "chal-9", [("X-Slack-No-Retry", JVal.jnum 1)]⟩)
      ↔ some "sek" = env₀.VERIFICATION_TOKEN)
    ∧ (some "sek" ≠ env₀.VERIFICATION_TOKEN →
        (run env₀ w₀ ⟨Except.ok ⟨some "url_verification", some "sek", some "chal-9", none⟩, []⟩).fst
          = some ⟨500, JVal.jstr (stringifyErr (JsErr.thrownString "Verification failed")),
              [("X-Slack-No-Retry", JVal.jnum 1)]⟩) :=
  C5_url_verification env₀ w₀ [] (some "sek") "chal-9" none (by decide)

/-- C4: a non-bot `event_callback` whose parsed command is
`invalidate_cdn` records exactly one CloudFront invalidation followed by
exactly one Slack post, in that order, and the posted text contains the
invalidation ID returned by the CloudFront call. -/
theorem C4_invalidate_command (env : Env) (w : World) (hdrs : List (String × String))
    (tok chal : Option String) (bid : Option String) (t : String) (ch : Option String)
    (d : CFData)
    (hre : hasKey hdrs "X-Slack-Retry-Num" = false)
    (hbot : truthyStr bid = false)
    (hcmd : parseMessage t = "invalidate_cdn")
    (hcf : w.cfResult = Except.ok d) :
    (run env w ⟨Except.ok ⟨some "event_callback", tok, chal, some ⟨bid, some t, ch⟩⟩, hdrs⟩).snd
      = [Effect.createInvalidation env.CDN_DISTRIBUTION (toString w.nowMs) "1" ["/*"],
         Effect.postMessage env.BOT_TOKEN ch (confirmMsg d.Invalidation.Id)]
    ∧ containsSub (confirmMsg d.Invalidation.Id) d.Invalidation.Id := by
  constructor
  · rcases hsl : w.slackResult with e | u <;>
      simp [run, hre, handleMessage, hbot, hcmd, invalidateDistribution, sendSlackMessage, hcf, hsl]
  · unfold confirmMsg
    exact containsSub_mid _ _ _

/-- C4 (witness): instantiated on the text `"@bot invalidate_cdn"` in the
concrete world, where the CloudFront call returns ID `I2J3K4`. -/
theorem C4_invalidate_command_witness :
    (run env₀ w₀ ⟨Except.ok ⟨some "event_callback", none, none,
        some ⟨none, some "@bot invalidate_cdn", some "C1"⟩⟩, []⟩).snd
      = [Effect.createInvalidation env₀.CDN_DISTRIBUTION (toString w₀.nowMs) "1" ["/*"],
         Effect.postMessage env₀.BOT_TOKEN (some "C1") (confirmMsg "I2J3K4")]
    ∧ containsSub (confirmMsg "I2J3K4") "I2J3K4" :=
  C4_invalidate_command env₀ w₀ [] none none none "@bot invalidate_cdn" (some "C1")
    ⟨⟨"I2J3K4"⟩⟩ (by decide) (by decide) (by decide) rfl

/-- C6 (counterexample): `bot_id` set to the empty string is a set field,
but the empty string is falsy in JS, so the guard does not fire: the
handler parses the text and posts the help message — an outbound messaging
call despite `bot_id` being set. -/
theorem C6_cex_empty_bot_id :
    (run env₀ w₀ ⟨Except.ok ⟨some "event_callback", none, none,
        some ⟨some "", some "@bot", some "C1"⟩⟩, []⟩).snd
      = [Effect.postMessage env₀.BOT_TOKEN (some "C1") (helpMsg env₀)] := by
  decide

/-- C6 (amended): for every `event_callback` whose `event.bot_id` is set
to a truthy (non-empty) string, the handler performs no messaging and no
invalidation call and answers 200 with body `{ ok: true }`. -/
theorem C6_bot_authored_ignored (env : Env) (w : World) (hdrs : List (String × String))
    (tok chal : Option String) (bid : Option String) (txt ch : Option String)
    (hre : hasKey hdrs "X-Slack-Retry-Num" = false)
    (hbot : truthyStr bid = true) :
    run env w ⟨Except.ok ⟨some "event_callback", tok, chal, some ⟨bid, txt, ch⟩⟩, hdrs⟩
      = (some ⟨200, JVal.jobj [("ok", JVal.jbool true)], [("X-Slack-No-Retry", JVal.jnum 1)]⟩, []) := by
  simp [run, hre, handleMessage, hbot, defaultResponse]

/-- C6 (witness): instantiated on a bot-authored message. -/
theorem C6_bot_authored_ignored_witness :
    run env₀ w₀ ⟨Except.ok ⟨some "event_callback", none, none,
        some ⟨some "B0001", some "@bot invalidate_cdn", some "C1"⟩⟩, []⟩
      = (some ⟨200, JVal.jobj [("ok", JVal.jbool true)], [("X-Slack-No-Retry", JVal.jnum 1)]⟩, []) :=
  C6_bot_authored_ignored env₀ w₀ [] none none (some "B0001") (some "@bot invalidate_cdn")
    (some "C1") (by decide) (by decide)

/-- C7: a non-bot `event_callback` whose parsed command differs from
`invalidate_cdn` records no invalidation and exactly one Slack post, whose
text contains the configured bot name and names the one supported command
`invalidate_cdn`. -/
theorem C7_help_message (env : Env) (w : World) (hdrs : List (String × String))
    (tok chal : Option String) (bid : Option String) (t : String) (ch : Option String)
    (name : String)
    (hre : hasKey hdrs "X-Slack-Retry-Num" = false)
    (hbot : truthyStr bid = false)
    (hcmd : parseMessage t ≠ "invalidate_cdn")
    (hname : env.BOT_NAME = some name) :
    (run env w ⟨Except.ok ⟨some "event_callback", tok, chal, some ⟨bid, some t, ch⟩⟩, hdrs⟩).snd
      = [Effect.postMessage env.BOT_TOKEN ch (helpMsg env)]
    ∧ containsSub (helpMsg env) name
    ∧ containsSub (helpMsg env) "invalidate_cdn" := by
  refine ⟨?_, ?_, ?_⟩
  · rcases hsl : w.slackResult with e | u <;>
      simp [run, hre, handleMessage, hbot, hcmd, sendSlackMessage, hsl]
  · simp only [helpMsg, hname, envStr]
    exact containsSub_mid _ _ _
  · simp only [helpMsg]
    have hsplit : (" invalidate_cdn\x60 to clear the CDN cache." : String)
        = " " ++ ("invalidate_cdn" ++ "\x60 to clear the CDN cache.") := by decide
    rw [hsplit]
    exact containsSub_cons _ _ _ (containsSub_cons _ _ _
      (containsSub_mid " " "invalidate_cdn" "\x60 to clear the CDN cache."))

/-- C7 (witness): instantiated on the text `"@bot foobar"` with bot name
`bender`. -/
theorem C7_help_message_witness :
    (run env₀ w₀ ⟨Except.ok ⟨some "event_callback", none, none,
        some ⟨none, some "@bot foobar", some "C1"⟩⟩, []⟩).snd
      = [Effect.postMessage env₀.BOT_TOKEN (some "C1") (helpMsg env₀)]
    ∧ containsSub (helpMsg env₀) "bender"
    ∧ containsSub (helpMsg env₀) "invalidate_cdn" :=
  C7_help_message env₀ w₀ [] none none none "@bot foobar" (some "C1") "bender"
    (by decide) (by decide) (by decide) rfl

/-- C10: a non-bot `event_callback` whose event has no `text` field makes
`parseMessage` call `.split` on `undefined`; the `TypeError` unwinds to the
outer catch and the answer is a 500 whose body is the stringified error
(an `Error` object stringifies to `{}`), with no API call recorded and no
`{ ok: true }` body. -/
theorem C10_missing_text (env : Env) (w : World) (hdrs : List (String × String))
    (tok chal : Option String) (bid ch : Option String)
    (hre : hasKey hdrs "X-Slack-Retry-Num" = false)
    (hbot : truthyStr bid = false) :
    run env w ⟨Except.ok ⟨some "event_callback", tok, chal, some ⟨bid, none, ch⟩⟩, hdrs⟩
      = (some ⟨500, JVal.jstr "\x7b\x7d", [("X-Slack-No-Retry", JVal.jnum 1)]⟩, []) := by
  simp [run, hre, handleMessage, hbot, stringifyErr, defaultResponse]

/-- C10 (witness): instantiated on an event with `bot_id` and `text` both
absent. -/
theorem C10_missing_text_witness :
    run env₀ w₀ ⟨Except.ok ⟨some "event_callback", none, none,
        some ⟨none, none, some "C1"⟩⟩, []⟩
      = (some ⟨500, JVal.jstr "\x7b\x7d", [("X-Slack-No-Retry", JVal.jnum 1)]⟩, []) :=
  C10_missing_text env₀ w₀ [] none none none (some "C1") (by decide) (by decide)
